import Mathlib

/-!
Shallow embedding of `pyRockBlock/pyRockBlock.py`: the AT-command session
driver for a RockBLOCK Iridium SBD modem.

The serial transport is modelled as a script: a `List String` of the lines
the device will produce (already decoded and stripped, as `RockBlock._read`
returns them), consumed in order, together with a trace (`List TxEvent`) of
everything the driver writes to the transport.  Each modelled operation
returns `(result, remaining input, written trace)`; Python exceptions are
modelled with `Except`.
-/

namespace PyRockBlock

/-- Python-level failure outcomes.
`rockBlock`/`rockBlockSignal` model `RockBlockException` and
`RockBlockSignalException`; `valueError`, `keyError` and `indexError` model
the corresponding Python builtin exceptions escaping uncaught; `blocked`
marks that the modelled computation consumed the whole scripted input and is
still waiting on the transport (i.e. the real code would still be blocked in
a read at that point). -/
inductive PyErr where
  | rockBlock (msg : String)
  | rockBlockSignal (msg : String)
  | valueError
  | keyError
  | indexError
  | blocked
  deriving DecidableEq, Repr

/-- One write to the serial transport: either the encoded text of a
`write` call (for `write_line` this includes the trailing carriage return),
or a raw byte payload as in `queue_bytes`. -/
inductive TxEvent where
  | line (s : String)
  | raw (bs : List Nat)
  deriving DecidableEq, Repr

/-- Model of `RockBlock.read_next` (lines 132-143): reads lines, discarding every
line whose length is 0, until a non-empty line arrives.  On the scripted
transport, exhausting the script means the loop is still spinning on empty
reads, reported as `PyErr.blocked`. -/
def readNextE : List String → Except PyErr String × List String
  | [] => (.error .blocked, [])
  | l :: ls => if l.length = 0 then readNextE ls else (.ok l, ls)

/-- Model of `RockBlock.write_line_echo` (lines 164-175): `write_line` writes the
command followed by `"\r"`, then the next non-empty line is compared with
the command. -/
def writeLineEcho (cmd : String) (inp : List String) (tx : List TxEvent) :
    Except PyErr Bool × List String × List TxEvent :=
  let tx1 := tx ++ [TxEvent.line (cmd ++ "\r")]
  match readNextE inp with
  | (.error e, inp1) => (.error e, inp1, tx1)
  | (.ok l, inp1) => (.ok (l = cmd), inp1, tx1)

/-- Value of a decimal digit character, if it is one. -/
def decDigit? (c : Char) : Option Nat :=
  if '0' ≤ c ∧ c ≤ '9' then some (c.toNat - 48) else none

/-- Accumulate the value of a decimal digit string; `none` on any
non-digit. -/
def decVal : List Char → Nat → Option Nat
  | [], acc => some acc
  | c :: cs, acc =>
    match decDigit? c with
    | none => none
    | some d => decVal cs (acc * 10 + d)

/-- Python `int(s)` on an optionally `'-'`-signed decimal string: the value,
or `ValueError` when the string is empty or holds a non-digit. -/
def pyInt (s : String) : Except PyErr Int :=
  match s.toList with
  | [] => .error .valueError
  | '-' :: rest =>
    match rest, decVal rest 0 with
    | [], _ => .error .valueError
    | _ :: _, none => .error .valueError
    | _ :: _, some n => .ok (-(n : Int))
  | l =>
    match decVal l 0 with
    | none => .error .valueError
    | some n => .ok (n : Int)

/-- Value of a hexadecimal digit character, if it is one. -/
def hexDigit? (c : Char) : Option Nat :=
  if '0' ≤ c ∧ c ≤ '9' then some (c.toNat - 48)
  else if 'a' ≤ c ∧ c ≤ 'f' then some (c.toNat - 87)
  else if 'A' ≤ c ∧ c ≤ 'F' then some (c.toNat - 55)
  else none

/-- Accumulate the value of a hexadecimal digit string; `none` on any
non-hex-digit. -/
def hexVal : List Char → Nat → Option Nat
  | [], acc => some acc
  | c :: cs, acc =>
    match hexDigit? c with
    | none => none
    | some d => hexVal cs (acc * 16 + d)

/-- Python `int(s, 16)` on a plain hexadecimal digit string: the value, or
`ValueError` when the string is empty or holds a non-hex character. -/
def pyIntBase16 (s : String) : Except PyErr Nat :=
  match s.toList with
  | [] => .error .valueError
  | l =>
    match hexVal l 0 with
    | none => .error .valueError
    | some n => .ok n

/-- Table `SessionResponse.MO_STATUS_CODES` (lines 19-49): the sparse MO status
code to text dictionary, as an association list. -/
def MO_STATUS_CODES : List (Int × String) :=
  [(0, "MO Success"),
   (1, "MO Success, MT too big for transfer"),
   (2, "MO Success, location update not accepted"),
   (3, "MO Success"),
   (4, "MO Success"),
   (5, "MO Failure"),
   (6, "MO Failure"),
   (7, "MO Failure"),
   (8, "MO Failure"),
   (9, "Unknown"),
   (10, "GSS reports call did not complete in allowed time"),
   (11, "MO message queue full at GSS"),
   (12, "MO message has too many segments"),
   (13, "GSS reports session did not complete"),
   (14, "Invalid segment size"),
   (15, "Access is denied"),
   (16, "ISU has been locked and may not make SBD calls"),
   (17, "Gateway not responding"),
   (18, "Connection lost"),
   (19, "Link failure"),
   (32, "No network service"),
   (33, "Antenna fault"),
   (34, "Radio is disabled"),
   (35, "ISU is busy"),
   (36, "Try later, must wait 3 minutes since last registration"),
   (37, "SBD service is temporarily disabled"),
   (38, "Try later, traffic management period"),
   (64, "Band violation"),
   (65, "PLL lock failure, hardware error during attempted transmit")]

/-- Table `SessionResponse.MT_STATUS_CODES` (lines 51-55). -/
def MT_STATUS_CODES : List (Int × String) :=
  [(0, "No SBD message to receive from the GSS"),
   (1, "SBD message successfully received from the GSS"),
   (2, "An error occurred while attempting to perform a mailbox check or receive a message from the GSS")]

/-- Model of `SessionResponse._get_status_message` (lines 57-65).  In the `mo` branch
the source wraps the dict access in `try ... except IndexError: return
"Failure (reserved)"`, but a Python dict raises `KeyError` on a missing
key, which `except IndexError` does not catch: the missing-key case
therefore escapes as an uncaught `KeyError` and the `"Failure (reserved)"`
fallback is unreachable.  The `mt` branch has no handler at all. -/
def getStatusMessage (code : Int) (mo : Bool) : Except PyErr String :=
  if mo then
    match MO_STATUS_CODES.lookup code with
    | some s => .ok s
    | none => .error .keyError
  else
    match MT_STATUS_CODES.lookup code with
    | some s => .ok s
    | none => .error .keyError

/-- The fields set by `SessionResponse.__init__` (lines 67-76).  Note the
source keeps `momsn` and `mtmsn` as the raw strings from the split, while
the other four fields go through `int(...)`. -/
structure SessionResponse where
  mo_status_code : Int
  momsn : String
  mt_status_code : Int
  mtmsn : String
  mt_length : Int
  mt_queued : Int
  deriving DecidableEq, Repr

/-- Python list indexing `vs[i]`, raising `IndexError` out of range. -/
def listGet (vs : List String) (i : Nat) : Except PyErr String :=
  match vs.get? i with
  | some v => .ok v
  | none => .error .indexError

/-- Python `s.split(",")` at character level: split on every comma,
keeping empty parts; the empty string yields one empty part. -/
def splitOnComma : List Char → List (List Char)
  | [] => [[]]
  | c :: cs =>
    if c = ',' then [] :: splitOnComma cs
    else
      match splitOnComma cs with
      | [] => [[c]]
      | h :: t => (c :: h) :: t

/-- Python `s.split(" ")` at character level: split on every space,
keeping empty parts. -/
def splitOnSpace : List Char → List (List Char)
  | [] => [[]]
  | c :: cs =>
    if c = ' ' then [] :: splitOnSpace cs
    else
      match splitOnSpace cs with
      | [] => [[c]]
      | h :: t => (c :: h) :: t

/-- Python `s.split(", ")` at character level: split on every
(non-overlapping, leftmost) occurrence of comma-space, keeping empty
parts. -/
def splitOnCommaSpace : List Char → List (List Char)
  | [] => [[]]
  | [c] => [[c]]
  | c1 :: c2 :: cs =>
    if c1 = ',' ∧ c2 = ' ' then [] :: splitOnCommaSpace cs
    else
      match splitOnCommaSpace (c2 :: cs) with
      | [] => [[c1]]
      | h :: t => (c1 :: h) :: t

/-- Python `response.split(",")` on strings. -/
def pySplitComma (s : String) : List String :=
  (splitOnComma s.toList).map String.mk

/-- Python `part.split(" ")` on strings. -/
def pySplitSpace (s : String) : List String :=
  (splitOnSpace s.toList).map String.mk

/-- Python `response.split(", ")` on strings. -/
def pySplitCommaSpace (s : String) : List String :=
  (splitOnCommaSpace s.toList).map String.mk

/-- Model of `SessionResponse.__init__` (lines 67-76): split the payload on `","`
and populate the six fields in source order, so the first failing index or
`int(...)` conversion aborts construction. -/
def sessionResponseInit (response : String) : Except PyErr SessionResponse :=
  let vs := pySplitComma response
  match listGet vs 0 with
  | .error e => .error e
  | .ok f0 =>
    match pyInt f0 with
    | .error e => .error e
    | .ok mo =>
      match listGet vs 1 with
      | .error e => .error e
      | .ok momsn =>
        match listGet vs 2 with
        | .error e => .error e
        | .ok f2 =>
          match pyInt f2 with
          | .error e => .error e
          | .ok mt =>
            match listGet vs 3 with
            | .error e => .error e
            | .ok mtmsn =>
              match listGet vs 4 with
              | .error e => .error e
              | .ok f4 =>
                match pyInt f4 with
                | .error e => .error e
                | .ok mtLen =>
                  match listGet vs 5 with
                  | .error e => .error e
                  | .ok f5 =>
                    match pyInt f5 with
                    | .error e => .error e
                    | .ok mtQ =>
                      .ok ⟨mo, momsn, mt, mtmsn, mtLen, mtQ⟩

/-- Model of `SessionResponse.mo_status` (lines 78-81). -/
def moStatus (r : SessionResponse) : Except PyErr String :=
  getStatusMessage r.mo_status_code true

/-- Model of `SessionResponse.mt_status` (lines 83-86). -/
def mtStatus (r : SessionResponse) : Except PyErr String :=
  getStatusMessage r.mt_status_code false

/-- Model of `SessionResponse.mo_success` (lines 88-93). -/
def moSuccess (r : SessionResponse) : Bool :=
  if r.mo_status_code < 5 then true else false

/-- The fields set by `SbdStatus.__init__` (lines 96-105). -/
structure SbdStatus where
  buffer_mo : Bool
  momsn : Int
  buffer_mt : Bool
  mtmsn : Int
  deriving DecidableEq, Repr

/-- Python `bool(n)` on an integer. -/
def pyBool (n : Int) : Bool := n != 0

/-- Model of `SbdStatus.__init__` (lines 100-105): split the payload on `", "`,
split the first part on `" "` and take its token at index 1, convert with
`bool(int(...))` / `int(...)` in source order. -/
def sbdStatusInit (response : String) : Except PyErr SbdStatus :=
  let s := pySplitCommaSpace response
  match listGet s 0 with
  | .error e => .error e
  | .ok p0 =>
    match listGet (pySplitSpace p0) 1 with
    | .error e => .error e
    | .ok w1 =>
      match pyInt w1 with
      | .error e => .error e
      | .ok bmo =>
        match listGet s 1 with
        | .error e => .error e
        | .ok p1 =>
          match pyInt p1 with
          | .error e => .error e
          | .ok momsn =>
            match listGet s 2 with
            | .error e => .error e
            | .ok p2 =>
              match pyInt p2 with
              | .error e => .error e
              | .ok bmt =>
                match listGet s 3 with
                | .error e => .error e
                | .ok p3 =>
                  match pyInt p3 with
                  | .error e => .error e
                  | .ok mtmsn =>
                    .ok ⟨pyBool bmo, momsn, pyBool bmt, mtmsn⟩

/-- Split a character list at the first occurrence of `sep`; `none` when
`sep` does not occur.  This is the character-level core of Python
`s.split(sep, 1)` followed by unpacking into two variables. -/
def splitOnceChars (sep : Char) : List Char → Option (List Char × List Char)
  | [] => none
  | c :: cs =>
    if c = sep then some ([], cs)
    else
      match splitOnceChars sep cs with
      | none => none
      | some (a, b) => some (c :: a, b)

/-- Python `command, response = line.split(" ", 1)`: the parts before and
after the first space.  When the line holds no space, `split` yields a
single element and the two-variable unpacking raises `ValueError`. -/
def pySplitOnce (s : String) (sep : Char) : Except PyErr (String × String) :=
  match splitOnceChars sep s.toList with
  | none => .error .valueError
  | some (a, b) => .ok (String.mk a, String.mk b)

/-- Constant `RockBlock.IRIDIUM_EPOCH` (line 111), `2014-05-11T14:23:55`, expressed
in milliseconds since the Unix epoch (1399818235 seconds).  Modelled
datetimes are `Nat` milliseconds since the Unix epoch. -/
def IRIDIUM_EPOCH_MS : Nat := 1399818235000

/-- Model of `RockBlock.get_iridium_datetime` (lines 251-271): send `AT-MSSTM`
expecting an echo, split the reply at its first space; on a
`"no network service"` remainder consume one more line and either recurse
with `retry - 1` (after `time.sleep(1)`, not modelled) or, with the retry
budget exhausted, raise `RockBlockSignalException`; otherwise parse the
remainder as base-16 ticks and return `IRIDIUM_EPOCH + ticks * 90` ms. -/
def getIridiumDatetime (retry : Nat) (inp : List String) (tx : List TxEvent) :
    Except PyErr Nat × List String × List TxEvent :=
  match writeLineEcho "AT-MSSTM" inp tx with
  | (.error e, inp1, tx1) => (.error e, inp1, tx1)
  | (.ok echoed, inp1, tx1) =>
    if echoed then
      match readNextE inp1 with
      | (.error e, inp2) => (.error e, inp2, tx1)
      | (.ok line, inp2) =>
        match pySplitOnce line ' ' with
        | .error e => (.error e, inp2, tx1)
        | .ok (_, response) =>
          if response = "no network service" then
            match readNextE inp2 with
            | (.error e, inp3) => (.error e, inp3, tx1)
            | (.ok _, inp3) =>
              match retry with
              | r + 1 => getIridiumDatetime r inp3 tx1
              | 0 =>
                (.error (.rockBlockSignal "Could not get system time due to no signal"),
                  inp3, tx1)
          else
            match pyIntBase16 response with
            | .error e => (.error e, inp2, tx1)
            | .ok n => (.ok (IRIDIUM_EPOCH_MS + n * 90), inp2, tx1)
    else
      (.error (.rockBlock "Exception getting system time, unexpected Serial state"),
        inp1, tx1)

/-- Model of `RockBlock.queue_text` (lines 273-291): messages with `len(message)`
over 120 are rejected locally (a logged error and `return False`, no
transport traffic); otherwise one `AT+SBDWT=<message>` command line is
written, and anything other than echo-then-`"OK"` raises
`RockBlockException`. -/
def queueText (message : String) (inp : List String) (tx : List TxEvent) :
    Except PyErr Bool × List String × List TxEvent :=
  if message.length ≤ 120 then
    match writeLineEcho ("AT+SBDWT=" ++ message) inp tx with
    | (.error e, inp1, tx1) => (.error e, inp1, tx1)
    | (.ok echoed, inp1, tx1) =>
      if echoed then
        match readNextE inp1 with
        | (.error e, inp2) => (.error e, inp2, tx1)
        | (.ok l, inp2) =>
          if l = "OK" then (.ok true, inp2, tx1)
          else (.error (.rockBlock "Exception queueing text"), inp2, tx1)
      else (.error (.rockBlock "Exception queueing text"), inp1, tx1)
  else
    (.ok false, inp, tx)

/-- UTF-8 encoding of one code point, as byte values; the payload part of
Python `message.encode()`. -/
def utf8EncodeChar (n : Nat) : List Nat :=
  if n < 128 then [n]
  else if n < 2048 then [192 + n / 64, 128 + n % 64]
  else if n < 65536 then [224 + n / 4096, 128 + n / 64 % 64, 128 + n % 64]
  else [240 + n / 262144, 128 + n / 4096 % 64, 128 + n / 64 % 64, 128 + n % 64]

/-- Python `str.encode()`: UTF-8 bytes of the string. -/
def pyEncode (message : String) : List Nat :=
  (message.toList.map Char.toNat).flatMap utf8EncodeChar

/-- Python `bytes([n])`: a one-byte value, but `ValueError` when `n` is not
in `range(0, 256)`. -/
def pyByte (n : Nat) : Except PyErr (List Nat) :=
  if n < 256 then .ok [n] else .error .valueError

/-- The checksum loop of `queue_bytes` (lines 309-312): the sum of `ord(c)`
over the characters of the message. -/
def queueBytesChecksum (message : String) : Nat :=
  (message.toList.map Char.toNat).sum

/-- Term `command_bytes` of `queue_bytes` (line 314):
`message.encode() + bytes([checksum >> 8]) + bytes([checksum & 0xFF])`,
propagating the `ValueError` that `bytes([...])` raises when
`checksum >> 8` exceeds 255. -/
def queueBytesPayload (message : String) : Except PyErr (List Nat) :=
  let checksum := queueBytesChecksum message
  match pyByte (checksum >>> 8) with
  | .error e => .error e
  | .ok hi =>
    match pyByte (checksum &&& 255) with
    | .error e => .error e
    | .ok lo => .ok (pyEncode message ++ hi ++ lo)

/-- Model of `RockBlock.queue_bytes` (lines 293-320).  The length guard is the
source's `if 1 > len(message) > 340`, i.e. the conjunction
`1 > len ∧ len > 340`, which no length satisfies; then
`AT+SBDWB=<len>` is written expecting an echo, `READY` is awaited, the
payload plus two checksum bytes is written raw, and the `"0"`/`"OK"`
confirmation is read (the second read short-circuited away unless the
first line is `"0"`, as in the source's `and`). -/
def queueBytes (message : String) (inp : List String) (tx : List TxEvent) :
    Except PyErr Bool × List String × List TxEvent :=
  if 1 > message.length ∧ message.length > 340 then
    (.error (.rockBlock "Invalid number of bytes to send"), inp, tx)
  else
    match writeLineEcho ("AT+SBDWB=" ++ toString message.length) inp tx with
    | (.error e, inp1, tx1) => (.error e, inp1, tx1)
    | (.ok echoed, inp1, tx1) =>
      if echoed then
        match readNextE inp1 with
        | (.error e, inp2) => (.error e, inp2, tx1)
        | (.ok ready, inp2) =>
          if ready = "READY" then
            match queueBytesPayload message with
            | .error e => (.error e, inp2, tx1)
            | .ok commandBytes =>
              let tx2 := tx1 ++ [TxEvent.raw commandBytes]
              match readNextE inp2 with
              | (.error e, inp3) => (.error e, inp3, tx2)
              | (.ok z, inp3) =>
                if z = "0" then
                  match readNextE inp3 with
                  | (.error e, inp4) => (.error e, inp4, tx2)
                  | (.ok okLine, inp4) =>
                    if okLine = "OK" then (.ok true, inp4, tx2)
                    else (.ok false, inp4, tx2)
                else (.ok false, inp3, tx2)
          else
            (.error (.rockBlock "Exception writing bytes to buffer, unexpected serial state"),
              inp2, tx1)
      else
        (.error (.rockBlock "Exception writing bytes to buffer, unexpected serial state"),
          inp1, tx1)

/-- Model of `RockBlock.imei` (lines 223-238): with an empty cache, send `AT+CGSN`
(the echo result is ignored), read the reply line, then require a literal
`"OK"`; on `"OK"` the value is cached and returned, otherwise the method
falls off the end, returning Python `None` with the cache untouched.  With
a populated cache the cached value is returned with no transport traffic.
The result is `Option String`: `none` models the implicit `None`. -/
def imeiOp (cache : Option String) (inp : List String) (tx : List TxEvent) :
    Except PyErr (Option String) × Option String × List String × List TxEvent :=
  match cache with
  | some v => (.ok (some v), cache, inp, tx)
  | none =>
    match writeLineEcho "AT+CGSN" inp tx with
    | (.error e, inp1, tx1) => (.error e, cache, inp1, tx1)
    | (.ok _, inp1, tx1) =>
      match readNextE inp1 with
      | (.error e, inp2) => (.error e, cache, inp2, tx1)
      | (.ok imei, inp2) =>
        match readNextE inp2 with
        | (.error e, inp3) => (.error e, cache, inp3, tx1)
        | (.ok okLine, inp3) =>
          if okLine = "OK" then (.ok (some imei), some imei, inp3, tx1)
          else (.ok none, cache, inp3, tx1)

/-- Model of `RockBlock.modem` (lines 240-249): identical shape to `imei` with the
`AT+CGMM` command and the `_modem` cache. -/
def modemOp (cache : Option String) (inp : List String) (tx : List TxEvent) :
    Except PyErr (Option String) × Option String × List String × List TxEvent :=
  match cache with
  | some v => (.ok (some v), cache, inp, tx)
  | none =>
    match writeLineEcho "AT+CGMM" inp tx with
    | (.error e, inp1, tx1) => (.error e, cache, inp1, tx1)
    | (.ok _, inp1, tx1) =>
      match readNextE inp1 with
      | (.error e, inp2) => (.error e, cache, inp2, tx1)
      | (.ok modem, inp2) =>
        match readNextE inp2 with
        | (.error e, inp3) => (.error e, cache, inp3, tx1)
        | (.ok okLine, inp3) =>
          if okLine = "OK" then (.ok (some modem), some modem, inp3, tx1)
          else (.ok none, cache, inp3, tx1)

/-- The three lines one failed `AT-MSSTM` exchange consumes, repeated `n`
times: the command echo, the `no network service` reply, and the trailing
`OK` that the source consumes before retrying. -/
def noServiceScript : Nat → List String
  | 0 => []
  | n + 1 =>
    "AT-MSSTM" :: "-MSSTM: no network service" :: "OK" :: noServiceScript n

/-! ## Helper lemmas -/

/-- Running `read_next` on a script of `n` empty lines: every line is discarded and
the loop is still waiting, however large `n` is. -/
theorem readNextE_replicate_empty (n : Nat) :
    readNextE (List.replicate n "") = (.error .blocked, []) := by
  induction n with
  | zero => rfl
  | succ k ih => simpa [readNextE, List.replicate] using ih

/-- Whatever the script holds, `write_line_echo` appends exactly one line
write, the command followed by a carriage return, to the trace. -/
theorem writeLineEcho_trace (cmd : String) (inp : List String) (tx : List TxEvent) :
    (writeLineEcho cmd inp tx).2.2 = tx ++ [TxEvent.line (cmd ++ "\r")] := by
  unfold writeLineEcho
  split <;> rfl

/-- A successful `listGet` means the index is inside the list. -/
theorem listGet_ok_length {vs : List String} {i : Nat} {v : String}
    (h : listGet vs i = .ok v) : i < vs.length := by
  by_contra hlt
  unfold listGet at h
  rw [List.get?_eq_none.mpr (Nat.le_of_not_lt hlt)] at h
  exact Except.noConfusion h

/-- Successful indexing at 0..5 pins down the first six elements. -/
theorem listGet_six {vs : List String} {a0 a1 a2 a3 a4 a5 : String}
    (h0 : listGet vs 0 = .ok a0) (h1 : listGet vs 1 = .ok a1)
    (h2 : listGet vs 2 = .ok a2) (h3 : listGet vs 3 = .ok a3)
    (h4 : listGet vs 4 = .ok a4) (h5 : listGet vs 5 = .ok a5) :
    ∃ rest, vs = a0 :: a1 :: a2 :: a3 :: a4 :: a5 :: rest := by
  rcases vs with _ | ⟨x0, _ | ⟨x1, _ | ⟨x2, _ | ⟨x3, _ | ⟨x4, _ | ⟨x5, xs⟩⟩⟩⟩⟩⟩ <;>
    simp_all [listGet]

/-- Successful indexing at 0..3 pins down the first four elements. -/
theorem listGet_four {vs : List String} {a0 a1 a2 a3 : String}
    (h0 : listGet vs 0 = .ok a0) (h1 : listGet vs 1 = .ok a1)
    (h2 : listGet vs 2 = .ok a2) (h3 : listGet vs 3 = .ok a3) :
    ∃ rest, vs = a0 :: a1 :: a2 :: a3 :: rest := by
  rcases vs with _ | ⟨x0, _ | ⟨x1, _ | ⟨x2, _ | ⟨x3, xs⟩⟩⟩⟩ <;>
    simp_all [listGet]

/-- Successful indexing at 1 means the list has at least two elements,
the second being the value found. -/
theorem listGet_one {vs : List String} {a1 : String}
    (h1 : listGet vs 1 = .ok a1) :
    ∃ a0 rest, vs = a0 :: a1 :: rest := by
  rcases vs with _ | ⟨x0, _ | ⟨x1, xs⟩⟩ <;> simp_all [listGet]

/-! ## C1 -/

/-- C1: the claim says an MO status code outside the fixed table (such as
20 or 66) makes the `mo_status` lookup return `"Failure (reserved)"`
without raising.  In the source the fallback sits in an
`except IndexError` handler, but a Python dict raises `KeyError`, so the
unmapped codes escape as an uncaught `KeyError` instead; mapped codes are
returned correctly. -/
theorem mo_status_unmapped_raises_keyerror :
    moStatus ⟨0, "", 0, "", 0, 0⟩ = .ok "MO Success" ∧
    moStatus ⟨65, "", 0, "", 0, 0⟩ =
      .ok "PLL lock failure, hardware error during attempted transmit" ∧
    moStatus ⟨20, "", 0, "", 0, 0⟩ = .error .keyError ∧
    moStatus ⟨66, "", 0, "", 0, 0⟩ = .error .keyError :=
  ⟨rfl, rfl, rfl, rfl⟩

/-! ## C2 -/

/-- C2 counterexample: the claim says the no-signal failure comes "after
exactly 5 consecutive `no network service` responses".  Here the transport
yields exactly 5 consecutive `no network service` responses and then a
valid reply: the call does not fail but succeeds on the 6th exchange,
because the budget `retry=5` means 5 retries after the initial attempt,
i.e. 6 responses before failure. -/
theorem iridium_five_noservice_still_succeeds :
    getIridiumDatetime 5 (noServiceScript 5 ++ ["AT-MSSTM", "AT-MSSTM 12345678"]) [] =
      (.ok (IRIDIUM_EPOCH_MS + 0x12345678 * 90), [],
        List.replicate 6 (TxEvent.line "AT-MSSTM\r")) :=
  rfl

/-- C2 amended: with every read yielding `no network service`,
`get_iridium_datetime 5` raises `RockBlockSignalException` after exactly 5
retries, i.e. after 6 consecutive `no network service` responses (the
initial attempt plus 5 retries, visible as 6 `AT-MSSTM` writes consuming
the whole 6-exchange script); and with a valid hex payload on the 3rd
attempt it returns the decoded time with no further retries (exactly 3
`AT-MSSTM` writes). -/
theorem iridium_retry_budget_six_responses :
    getIridiumDatetime 5 (noServiceScript 6) [] =
      (.error (.rockBlockSignal "Could not get system time due to no signal"), [],
        List.replicate 6 (TxEvent.line "AT-MSSTM\r")) ∧
    getIridiumDatetime 5 (noServiceScript 2 ++ ["AT-MSSTM", "AT-MSSTM 12345678"]) [] =
      (.ok (IRIDIUM_EPOCH_MS + 0x12345678 * 90), [],
        List.replicate 3 (TxEvent.line "AT-MSSTM\r")) :=
  ⟨rfl, rfl⟩

/-! ## C3 -/

set_option maxRecDepth 8000 in
/-- C3: the claim says messages of length 0 or above 340 are rejected
before any transport write.  The source guard `if 1 > len(message) > 340`
is the unsatisfiable conjunction `1 > len ∧ len > 340`, so it never fires:
the empty message sends `AT+SBDWB=0` to the transport, and a 341-byte
message is transmitted in full (command line, then payload plus checksum
trailer) when the device plays along. -/
theorem queue_bytes_out_of_range_reaches_transport :
    queueBytes "" [] [] = (.error .blocked, [], [TxEvent.line "AT+SBDWB=0\r"]) ∧
    (String.mk (List.replicate 341 'a')).length = 341 ∧
    queueBytes (String.mk (List.replicate 341 'a'))
        ["AT+SBDWB=341", "READY", "0", "OK"] [] =
      (.ok true, [],
        [TxEvent.line "AT+SBDWB=341\r",
         TxEvent.raw (List.replicate 341 97 ++ [129, 53])]) :=
  ⟨rfl, rfl, rfl⟩

/-! ## C4 -/

set_option maxRecDepth 8000 in
/-- C4: the claim says the trailing checksum bytes are the big-endian
bytes of the byte sum mod 65536 and that the checksum computation never
fails for in-range payloads, including sums of 65536 or more.  For a
payload summing to 300 the trailer is indeed `0x01, 0x2C`; but the source
computes `bytes([checksum >> 8])` without any reduction mod 65536, so an
in-range 340-character payload of `U+00FF` (character sum 86700,
`86700 >> 8 = 338`) makes `bytes([338])` raise `ValueError` and nothing is
written after the `READY` prompt. -/
theorem queue_bytes_checksum_overflow_valueerror :
    queueBytesChecksum "ddd" = 300 ∧
    queueBytes "ddd" ["AT+SBDWB=3", "READY", "0", "OK"] [] =
      (.ok true, [],
        [TxEvent.line "AT+SBDWB=3\r", TxEvent.raw [100, 100, 100, 0x01, 0x2C]]) ∧
    queueBytesChecksum (String.mk (List.replicate 340 'ÿ')) = 86700 ∧
    queueBytesPayload (String.mk (List.replicate 340 'ÿ')) = .error .valueError ∧
    queueBytes (String.mk (List.replicate 340 'ÿ')) ["AT+SBDWB=340", "READY"] [] =
      (.error .valueError, [], [TxEvent.line "AT+SBDWB=340\r"]) :=
  ⟨rfl, rfl, rfl, rfl, rfl⟩

/-! ## C5 -/

/-- C5 counterexample: the claim says a session payload whose field count
is not 6 fails to decode.  A 7-field payload decodes successfully, the
extra field silently ignored. -/
theorem session_decode_seven_fields_succeeds :
    sessionResponseInit "0,14,1,3,20,0,7" = .ok ⟨0, "14", 1, "3", 20, 0⟩ :=
  rfl

/-- C5 amended: decoding succeeds exactly when the comma-split has at
least six fields and fields 0, 2, 4, 5 parse as integers; the first six
fields populate the `SessionResponse` (any extras are ignored) and, the
result being all-or-nothing, fewer than six fields or a non-numeric
integer field can never yield a partially populated value. -/
theorem session_decode_first_six_fields (s : String) (r : SessionResponse) :
    sessionResponseInit s = .ok r ↔
      ∃ f0 f2 f4 f5 rest,
        pySplitComma s = f0 :: r.momsn :: f2 :: r.mtmsn :: f4 :: f5 :: rest ∧
        pyInt f0 = .ok r.mo_status_code ∧
        pyInt f2 = .ok r.mt_status_code ∧
        pyInt f4 = .ok r.mt_length ∧
        pyInt f5 = .ok r.mt_queued := by
  constructor
  · intro h
    unfold sessionResponseInit at h
    simp only [] at h
    repeat' split at h
    all_goals try exact Except.noConfusion h
    rename_i x9 f0 hg0 x8 n0 hn0 x7 m1 hg1 x6 f2 hg2 x5 n2 hn2 x4 m3 hg3 x3 f4
      hg4 x2 n4 hn4 x1 f5 hg5 x0 n5 hn5
    injection h with hr
    subst hr
    obtain ⟨rest, hv⟩ := listGet_six hg0 hg1 hg2 hg3 hg4 hg5
    exact ⟨f0, f2, f4, f5, rest, hv, hn0, hn2, hn4, hn5⟩
  · rintro ⟨f0, f2, f4, f5, rest, hv, h0, h2, h4, h5⟩
    unfold sessionResponseInit
    rw [hv]
    simp only [listGet, List.get?_cons_zero, List.get?_cons_succ]
    rw [h0, h2, h4, h5]

/-- Witness for the C5 amended theorem at the spec's own example payload:
`"0,14,1,3,20,0"` decodes to the stated field values and `mo_success` is
true. -/
theorem session_decode_first_six_fields_witness :
    sessionResponseInit "0,14,1,3,20,0" = .ok ⟨0, "14", 1, "3", 20, 0⟩ ∧
    moSuccess ⟨0, "14", 1, "3", 20, 0⟩ = true :=
  ⟨(session_decode_first_six_fields "0,14,1,3,20,0" ⟨0, "14", 1, "3", 20, 0⟩).mpr
      ⟨"0", "1", "20", "0", [], rfl, rfl, rfl, rfl, rfl⟩,
    rfl⟩

/-! ## C6 -/

/-- C6: a message longer than 120 rejects locally — the call returns
`False` with the transport script and write trace untouched (no exception,
so the outcome is distinguishable from the raised protocol errors); a
message of length at most 120 puts exactly one `AT+SBDWT=<message>`
command line on the transport, whatever the device replies. -/
theorem queue_text_length_gate (message : String) (inp : List String) (tx : List TxEvent) :
    (120 < message.length → queueText message inp tx = (.ok false, inp, tx)) ∧
    (message.length ≤ 120 →
      (queueText message inp tx).2.2 =
        tx ++ [TxEvent.line ("AT+SBDWT=" ++ message ++ "\r")]) := by
  constructor
  · intro h
    unfold queueText
    rw [if_neg (by omega)]
  · intro h
    unfold queueText
    rw [if_pos h]
    have htr := writeLineEcho_trace ("AT+SBDWT=" ++ message) inp tx
    split
    · rename_i e inp1 tx1 hw
      rw [hw] at htr
      exact htr
    · rename_i echoed inp1 tx1 hw
      rw [hw] at htr
      simp only at htr
      split
      · split
        · exact htr
        · split
          · exact htr
          · exact htr
      · exact htr

/-- Witness for C6: a 121-character message is rejected with untouched
transport state, and a short message produces exactly one `AT+SBDWT=`
command-line write. -/
theorem queue_text_length_gate_witness :
    queueText (String.mk (List.replicate 121 'a')) [] [] = (.ok false, [], []) ∧
    (queueText "hello" [] []).2.2 = [TxEvent.line ("AT+SBDWT=" ++ "hello" ++ "\r")] :=
  ⟨(queue_text_length_gate (String.mk (List.replicate 121 'a')) [] []).1 (by decide),
   (queue_text_length_gate "hello" [] []).2 (by decide)⟩

/-! ## C8 -/

/-- The claim that `read_next` cannot loop forever: on a transport whose
reads keep producing empty results it would stop with a transport error.
In the model, for a script of `n` empty lines — any `n` — `read_next` is
still waiting on the transport (`PyErr.blocked`), having raised nothing:
no finite amount of empty input makes it return or fail, i.e. on the
all-empty transport the source's `while` loop never terminates. -/
def readNextStopsOnEmpty : Prop :=
  ∀ n : Nat, readNextE (List.replicate n "") = (Except.error PyErr.blocked, [])

/-- C8 counterexample: `read_next` never returns and never raises on the
all-empty transport, contradicting the claim that it terminates for every
transport behaviour with a transport error. -/
theorem read_next_empty_transport_never_returns : readNextStopsOnEmpty :=
  readNextE_replicate_empty

/-- C8 amended: `read_next` returns only non-empty lines (every
zero-length line is discarded), but it does not terminate for every
transport behaviour: when the underlying reads keep producing empty
results it loops forever — still blocked after any number of empty lines —
rather than failing with a transport error. -/
theorem read_next_nonempty_only :
    (∀ inp l inp', readNextE inp = (.ok l, inp') → l ≠ "") ∧
    (∀ n : Nat, readNextE (List.replicate n "") = (.error .blocked, [])) := by
  constructor
  · intro inp
    induction inp with
    | nil =>
      intro l inp' h
      exact absurd h (by simp [readNextE])
    | cons x xs ih =>
      intro l inp' h
      unfold readNextE at h
      by_cases hx : x.length = 0
      · rw [if_pos hx] at h
        exact ih l inp' h
      · rw [if_neg hx] at h
        obtain ⟨h1, h2⟩ := Prod.mk.injEq .. ▸ h
        injection h1 with h1
        subst h1
        intro hcon
        exact hx (by simp [hcon])
  · exact readNextE_replicate_empty

/-- Witness for the C8 amended theorem: a script starting with an empty
line followed by `"hi"` yields `"hi"`, a non-empty line. -/
theorem read_next_nonempty_only_witness :
    readNextE ["", "hi"] = (.ok "hi", []) ∧ ("hi" : String) ≠ "" :=
  ⟨rfl, read_next_nonempty_only.1 ["", "hi"] "hi" [] rfl⟩

/-! ## C7 -/

/-- C7: when the `AT-MSSTM` reply carries a hexadecimal tick payload
(anything that base-16 parses, which `"no network service"` does not), the
call returns exactly the Iridium epoch plus `ticks * 90` milliseconds,
consuming one echo and one reply line, with a single `AT-MSSTM` write and
no retry. -/
theorem iridium_hex_decode (retry : Nat) (payload : String) (n : Nat) (tx : List TxEvent)
    (hhex : pyIntBase16 payload = .ok n) (hns : payload ≠ "no network service") :
    getIridiumDatetime retry ["AT-MSSTM", "AT-MSSTM " ++ payload] tx =
      (.ok (IRIDIUM_EPOCH_MS + n * 90), [], tx ++ [TxEvent.line "AT-MSSTM\r"]) := by
  have h1 : writeLineEcho "AT-MSSTM" ["AT-MSSTM", "AT-MSSTM " ++ payload] tx =
      (.ok true, ["AT-MSSTM " ++ payload], tx ++ [TxEvent.line "AT-MSSTM\r"]) := rfl
  have h0 : ¬(("AT-MSSTM " ++ payload).length = 0) := by
    rw [String.length_append]
    have h9 : "AT-MSSTM ".length = 9 := rfl
    omega
  have h2 : readNextE ["AT-MSSTM " ++ payload] = (.ok ("AT-MSSTM " ++ payload), []) := by
    unfold readNextE
    rw [if_neg h0]
  have h3 : pySplitOnce ("AT-MSSTM " ++ payload) ' ' = .ok ("AT-MSSTM", payload) := by
    have hdata : ("AT-MSSTM " ++ payload).toList =
        'A' :: 'T' :: '-' :: 'M' :: 'S' :: 'S' :: 'T' :: 'M' :: ' ' :: payload.toList := by
      show ("AT-MSSTM " ++ payload).data = _
      rw [String.data_append]
      exact rfl
    unfold pySplitOnce
    rw [hdata]
    exact rfl
  unfold getIridiumDatetime
  rw [h1]
  simp only [if_true]
  rw [h2]
  simp only
  rw [h3]
  simp only [if_neg hns]
  rw [hhex]

/-- Witness for C7 at the spec's example payload `"12345678"`. -/
theorem iridium_hex_decode_witness :
    getIridiumDatetime 5 ["AT-MSSTM", "AT-MSSTM 12345678"] [] =
      (.ok (IRIDIUM_EPOCH_MS + 0x12345678 * 90), [], [TxEvent.line "AT-MSSTM\r"]) :=
  iridium_hex_decode 5 "12345678" 0x12345678 [] rfl (by decide)

/-! ## C9 -/

/-- C9 counterexample: the claim says flag tokens other than `0`/`1`, or a
token count other than 4, fail to decode.  A 5-part payload with flag
tokens `2` and `5` decodes successfully: the extra part is ignored and
`bool(int(...))` accepts any integer. -/
theorem sbd_status_loose_decode_succeeds :
    sbdStatusInit "+SBDS 2, 3, 5, 4, 9" = .ok ⟨true, 3, true, 4⟩ :=
  rfl

/-- C9 amended: the status decoder succeeds exactly when the `", "`-split
has at least 4 parts (extras ignored), the first part space-splits to at
least two tokens — the token at index 1, not necessarily the trailing one,
being used — and the integer conversions succeed; the flag fields are
`bool(int(token))`, true for any non-zero integer, and any such failure
aborts the whole decode with no partial value. -/
theorem sbd_status_decode_amended (s : String) (r : SbdStatus) :
    sbdStatusInit s = .ok r ↔
      ∃ p0 p1 p2 p3 rest w0 w1 wrest nb nt,
        pySplitCommaSpace s = p0 :: p1 :: p2 :: p3 :: rest ∧
        pySplitSpace p0 = w0 :: w1 :: wrest ∧
        pyInt w1 = .ok nb ∧ pyInt p1 = .ok r.momsn ∧
        pyInt p2 = .ok nt ∧ pyInt p3 = .ok r.mtmsn ∧
        r.buffer_mo = pyBool nb ∧ r.buffer_mt = pyBool nt := by
  constructor
  · intro h
    unfold sbdStatusInit at h
    simp only [] at h
    repeat' split at h
    all_goals try exact Except.noConfusion h
    rename_i x8 p0 hg0 x7 w1 hw1 x6 nb hnb x5 p1 hg1 x4 m hm x3 p2 hg2 x2 nt hnt
      x1 p3 hg3 x0 t ht
    injection h with hr
    subst hr
    obtain ⟨rest, hv⟩ := listGet_four hg0 hg1 hg2 hg3
    obtain ⟨w0, wrest, hw⟩ := listGet_one hw1
    exact ⟨p0, p1, p2, p3, rest, w0, w1, wrest, nb, nt, hv, hw, hnb, hm, hnt, ht,
      rfl, rfl⟩
  · rintro ⟨p0, p1, p2, p3, rest, w0, w1, wrest, nb, nt, hv, hw, hnb, hm, hnt, ht,
      hbmo, hbmt⟩
    unfold sbdStatusInit
    rw [hv]
    simp only [listGet, List.get?_cons_zero, List.get?_cons_succ, hw, hnb, hm, hnt, ht]
    rcases r with ⟨bmo, momsn, bmt, mtmsn⟩
    simp only at hbmo hbmt ⊢
    rw [hbmo, hbmt]

/-- Witness for the C9 amended theorem at a well-formed status payload. -/
theorem sbd_status_decode_amended_witness :
    sbdStatusInit "+SBDS 0, 1, 1, 2" = .ok ⟨false, 1, true, 2⟩ :=
  (sbd_status_decode_amended "+SBDS 0, 1, 1, 2" ⟨false, 1, true, 2⟩).mpr
    ⟨"+SBDS 0", "1", "1", "2", [], "+SBDS", "0", [], 0, 1,
      rfl, rfl, rfl, rfl, rfl, rfl, rfl, rfl⟩

/-! ## C10 -/

/-- Whatever the script and cache-miss path do, the uncached `imei` query
writes exactly one `AT+CGSN` command line. -/
theorem imeiOp_trace (inp : List String) (tx : List TxEvent) :
    (imeiOp none inp tx).2.2.2 = tx ++ [TxEvent.line "AT+CGSN\r"] := by
  have htr := writeLineEcho_trace "AT+CGSN" inp tx
  unfold imeiOp
  dsimp only
  split
  · rename_i inp1 tx1 hw
    rw [hw] at htr
    exact htr
  · rename_i inp1 tx1 hw
    rw [hw] at htr
    simp only at htr
    split
    · exact htr
    · split
      · exact htr
      · split
        · exact htr
        · exact htr

/-- Whatever the script and cache-miss path do, the uncached `modem` query
writes exactly one `AT+CGMM` command line. -/
theorem modemOp_trace (inp : List String) (tx : List TxEvent) :
    (modemOp none inp tx).2.2.2 = tx ++ [TxEvent.line "AT+CGMM\r"] := by
  have htr := writeLineEcho_trace "AT+CGMM" inp tx
  unfold modemOp
  dsimp only
  split
  · rename_i inp1 tx1 hw
    rw [hw] at htr
    exact htr
  · rename_i inp1 tx1 hw
    rw [hw] at htr
    simp only at htr
    split
    · exact htr
    · split
      · exact htr
      · split
        · exact htr
        · exact htr

/-- C10: on an uncached query whose post-reply line is a non-empty line
other than `"OK"`, `imei` (and likewise `modem`) returns Python `None` —
not a string and not an exception — and leaves the cache unset; and any
later call that still finds the cache unset re-issues the `AT+CGSN`
(resp. `AT+CGMM`) command, so the declared `str` return type is not
honored on this path. -/
theorem imei_modem_missing_ok_returns_none (e r okl : String) (inp : List String)
    (tx : List TxEvent) (he : e.length ≠ 0) (hr : r.length ≠ 0)
    (hok0 : okl.length ≠ 0) (hok : okl ≠ "OK") :
    imeiOp none (e :: r :: okl :: inp) tx =
      (.ok none, none, inp, tx ++ [TxEvent.line "AT+CGSN\r"]) ∧
    modemOp none (e :: r :: okl :: inp) tx =
      (.ok none, none, inp, tx ++ [TxEvent.line "AT+CGMM\r"]) ∧
    (imeiOp none inp tx).2.2.2 = tx ++ [TxEvent.line "AT+CGSN\r"] ∧
    (modemOp none inp tx).2.2.2 = tx ++ [TxEvent.line "AT+CGMM\r"] := by
  have h1 : readNextE (e :: r :: okl :: inp) = (.ok e, r :: okl :: inp) := by
    unfold readNextE
    rw [if_neg he]
  have h2 : readNextE (r :: okl :: inp) = (.ok r, okl :: inp) := by
    unfold readNextE
    rw [if_neg hr]
  have h3 : readNextE (okl :: inp) = (.ok okl, inp) := by
    unfold readNextE
    rw [if_neg hok0]
  refine ⟨?_, ?_, imeiOp_trace inp tx, modemOp_trace inp tx⟩
  · unfold imeiOp writeLineEcho
    rw [h1]
    simp only
    rw [h2]
    simp only
    rw [h3]
    simp only [if_neg hok]
    rfl
  · unfold modemOp writeLineEcho
    rw [h1]
    simp only
    rw [h2]
    simp only
    rw [h3]
    simp only [if_neg hok]
    rfl

/-- Witness for C10 on a concrete failing exchange (third line `"ERROR"`
instead of `"OK"`). -/
theorem imei_modem_missing_ok_returns_none_witness :
    imeiOp none ["AT+CGSN", "300234010753370", "ERROR"] [] =
      (.ok none, none, [], [TxEvent.line "AT+CGSN\r"]) ∧
    modemOp none ["AT+CGSN", "300234010753370", "ERROR"] [] =
      (.ok none, none, [], [TxEvent.line "AT+CGMM\r"]) ∧
    (imeiOp none [] []).2.2.2 = [TxEvent.line "AT+CGSN\r"] ∧
    (modemOp none [] []).2.2.2 = [TxEvent.line "AT+CGMM\r"] :=
  imei_modem_missing_ok_returns_none "AT+CGSN" "300234010753370" "ERROR" [] []
    (by decide) (by decide) (by decide) (by decide)

end PyRockBlock
